import Mathlib

/-!
Verification of the model-registry / model-selection-manager core of the
qwen-code repository, as a shallow embedding in Lean.

The embedding mirrors:
  - packages/core/src/models/types.ts          (data model and global defaults)
  - packages/core/src/models/modelRegistry.ts  (ModelRegistry)
  - packages/core/src/models/modelSelectionManager.ts (ModelSelectionManager)

TypeScript Maps are modelled as association lists with JavaScript Map
semantics (insertion order preserved, set-on-existing-key keeps position);
numbers that the code only stores and copies (sampling parameters,
timeouts) are modelled as rationals; exceptions are modelled with Except;
the asynchronous change-notification callback is modelled as a function
returning Except, and Date.now() as an explicit argument.
-/

/-- AuthType is a string-backed enum in the source; the registry iterates
over arbitrary string keys cast to AuthType, so it is modelled as String. -/
abbrev AuthType := String

/-- The built-in provider-type tag, AuthType.QWEN_OAUTH = "qwen-oauth". -/
def QWEN_OAUTH : AuthType := "qwen-oauth"

/-- The legacy provider-type tag, AuthType.USE_OPENAI = "openai". -/
def USE_OPENAI : AuthType := "openai"

/-- Lookup in a JavaScript-Map-like association list (Map.get). -/
def jsMapGet {β : Type} (m : List (String × β)) (k : String) : Option β :=
  match m with
  | [] => none
  | (k1, v1) :: rest => if k1 = k then some v1 else jsMapGet rest k

/-- Insertion in a JavaScript-Map-like association list (Map.set): an
existing key keeps its position and gets the new value; a new key is
appended at the end. -/
def jsMapSet {β : Type} (m : List (String × β)) (k : String) (v : β) :
    List (String × β) :=
  match m with
  | [] => [(k, v)]
  | (k1, v1) :: rest =>
    if k1 = k then (k, v) :: rest else (k1, v1) :: jsMapSet rest k v

/-- JavaScript a || b for an optional string a: undefined and the empty
string are falsy. -/
def jsOrOpt (a : Option String) (b : String) : String :=
  match a with
  | none => b
  | some s => if s = "" then b else s

/-- ModelGenerationConfig from types.ts: all fields optional. -/
structure ModelGenerationConfig where
  temperature : Option ℚ := none
  top_p : Option ℚ := none
  top_k : Option ℚ := none
  max_tokens : Option ℚ := none
  presence_penalty : Option ℚ := none
  frequency_penalty : Option ℚ := none
  repetition_penalty : Option ℚ := none
  timeout : Option ℚ := none
  maxRetries : Option ℚ := none
  disableCacheControl : Option Bool := none
deriving DecidableEq, Repr

/-- ModelCapabilities from types.ts. -/
structure ModelCapabilities where
  vision : Option Bool := none
deriving DecidableEq, Repr

/-- ModelConfig from types.ts: an author-supplied model definition. -/
structure ModelConfig where
  id : String
  name : Option String := none
  description : Option String := none
  envKey : Option String := none
  baseUrl : Option String := none
  capabilities : Option ModelCapabilities := none
  generationConfig : Option ModelGenerationConfig := none
deriving DecidableEq, Repr

/-- ResolvedModelConfig from types.ts: every optional field defaulted. -/
structure ResolvedModelConfig where
  id : String
  authType : AuthType
  name : String
  description : Option String
  envKey : Option String
  baseUrl : String
  generationConfig : ModelGenerationConfig
  capabilities : ModelCapabilities
deriving DecidableEq, Repr

/-- DEFAULT_GENERATION_CONFIG from types.ts. -/
def DEFAULT_GENERATION_CONFIG : ModelGenerationConfig :=
  { temperature := some (7/10)
    top_p := some (9/10)
    max_tokens := some 4096
    timeout := some 60000
    maxRetries := some 3 }

/-- DEFAULT_BASE_URLS from types.ts: per-provider-type default base URL. -/
def DEFAULT_BASE_URLS (authType : AuthType) : Option String :=
  if authType = "qwen-oauth" then
    some "https://dashscope.aliyuncs.com/compatible-mode/v1"
  else if authType = "openai" then some "https://api.openai.com/v1"
  else none

/-- QWEN_OAUTH_MODELS from modelRegistry.ts: the hard-coded built-in
catalog for the qwen-oauth provider-type. -/
def QWEN_OAUTH_MODELS : List ModelConfig :=
  [ { id := "coder-model"
      name := some "Qwen Coder"
      description := some
        "The latest Qwen Coder model from Alibaba Cloud ModelStudio (version: qwen3-coder-plus-2025-09-23)"
      capabilities := some { vision := some false }
      generationConfig := some
        { temperature := some (7/10)
          top_p := some (9/10)
          max_tokens := some 8192
          timeout := some 60000
          maxRetries := some 3 } },
    { id := "vision-model"
      name := some "Qwen Vision"
      description := some
        "The latest Qwen Vision model from Alibaba Cloud ModelStudio (version: qwen3-vl-plus-2025-09-23)"
      capabilities := some { vision := some true }
      generationConfig := some
        { temperature := some (7/10)
          top_p := some (9/10)
          max_tokens := some 8192
          timeout := some 60000
          maxRetries := some 3 } } ]

/-- Modelled from the spec: DEFAULT_QWEN_MODEL is imported by
modelRegistry.ts from a config module whose source is not in the
repository slice; the spec calls it the fixed, named default identifier
of the built-in provider-type, and the registry tests pin it to the
coder model. -/
def DEFAULT_QWEN_MODEL : String := "coder-model"

/-- The ModelRegistry state: the forward catalog (provider-type to
identifier-keyed map of resolved definitions) and the reverse index
(identifier to the provider-types that registered it). -/
structure ModelRegistry where
  modelsByAuthType : List (AuthType × List (String × ResolvedModelConfig))
  modelIdToAuthTypes : List (String × List AuthType)
deriving Repr

namespace ModelRegistry

/-- validateModelConfig: an empty (or missing) identifier is fatal and
the error names the offending provider-type. -/
def validateModelConfig (config : ModelConfig) (authType : AuthType) :
    Except String Unit :=
  if config.id = "" then
    Except.error
      ("Model config in authType '" ++ authType ++ "' missing required field: id")
  else Except.ok ()

/-- mergeGenerationConfig: spread of the supplied config over the global
defaults, i.e. a field-by-field shallow merge. -/
def mergeGenerationConfig (config : Option ModelGenerationConfig) :
    ModelGenerationConfig :=
  match config with
  | none => DEFAULT_GENERATION_CONFIG
  | some c =>
    { temperature := c.temperature <|> DEFAULT_GENERATION_CONFIG.temperature
      top_p := c.top_p <|> DEFAULT_GENERATION_CONFIG.top_p
      top_k := c.top_k <|> DEFAULT_GENERATION_CONFIG.top_k
      max_tokens := c.max_tokens <|> DEFAULT_GENERATION_CONFIG.max_tokens
      presence_penalty :=
        c.presence_penalty <|> DEFAULT_GENERATION_CONFIG.presence_penalty
      frequency_penalty :=
        c.frequency_penalty <|> DEFAULT_GENERATION_CONFIG.frequency_penalty
      repetition_penalty :=
        c.repetition_penalty <|> DEFAULT_GENERATION_CONFIG.repetition_penalty
      timeout := c.timeout <|> DEFAULT_GENERATION_CONFIG.timeout
      maxRetries := c.maxRetries <|> DEFAULT_GENERATION_CONFIG.maxRetries
      disableCacheControl :=
        c.disableCacheControl <|> DEFAULT_GENERATION_CONFIG.disableCacheControl }

/-- resolveModelConfig: validate, then apply defaults (name falls back to
the identifier, baseUrl to the per-provider-type default, generation
config merged, capabilities default to the empty record). Falsy (empty
string) supplied values fall back exactly as JavaScript || does. -/
def resolveModelConfig (config : ModelConfig) (authType : AuthType) :
    Except String ResolvedModelConfig := do
  validateModelConfig config authType
  let defaultBaseUrl := (DEFAULT_BASE_URLS authType).getD ""
  Except.ok
    { id := config.id
      authType := authType
      name := jsOrOpt config.name config.id
      description := config.description
      envKey := config.envKey
      baseUrl := jsOrOpt config.baseUrl defaultBaseUrl
      generationConfig := mergeGenerationConfig config.generationConfig
      capabilities := config.capabilities.getD {} }

/-- The loop body of registerAuthTypeModels: resolve each config, insert
it into the provider-type map under construction, and append the
provider-type to the reverse index entry of the identifier. -/
def registerModelsLoop (authType : AuthType) (models : List ModelConfig)
    (modelMap : List (String × ResolvedModelConfig))
    (reverseIndex : List (String × List AuthType)) :
    Except String
      (List (String × ResolvedModelConfig) × List (String × List AuthType)) :=
  match models with
  | [] => Except.ok (modelMap, reverseIndex)
  | config :: rest => do
    let resolved ← resolveModelConfig config authType
    let modelMap1 := jsMapSet modelMap config.id resolved
    let existingAuthTypes := (jsMapGet reverseIndex config.id).getD []
    let reverseIndex1 :=
      jsMapSet reverseIndex config.id (existingAuthTypes ++ [authType])
    registerModelsLoop authType rest modelMap1 reverseIndex1

/-- registerAuthTypeModels from modelRegistry.ts. -/
def registerAuthTypeModels (reg : ModelRegistry) (authType : AuthType)
    (models : List ModelConfig) : Except String ModelRegistry := do
  let (modelMap, reverseIndex) ←
    registerModelsLoop authType models [] reg.modelIdToAuthTypes
  Except.ok
    { modelsByAuthType := jsMapSet reg.modelsByAuthType authType modelMap
      modelIdToAuthTypes := reverseIndex }

/-- The constructor loop over the caller-supplied entries: entries keyed
by the built-in provider-type are skipped, the rest are registered. -/
def newLoop (reg : ModelRegistry)
    (entries : List (AuthType × List ModelConfig)) :
    Except String ModelRegistry :=
  match entries with
  | [] => Except.ok reg
  | (authType, models) :: rest =>
    if authType = "qwen-oauth" then newLoop reg rest
    else do
      let reg1 ← registerAuthTypeModels reg authType models
      newLoop reg1 rest

/-- The ModelRegistry constructor: always registers the built-in catalog
first, then the caller-supplied entries for the other provider-types. -/
def new (modelProvidersConfig : Option (List (AuthType × List ModelConfig))) :
    Except String ModelRegistry := do
  let base : ModelRegistry := { modelsByAuthType := [], modelIdToAuthTypes := [] }
  let withQwen ← registerAuthTypeModels base "qwen-oauth" QWEN_OAUTH_MODELS
  match modelProvidersConfig with
  | none => Except.ok withQwen
  | some entries => newLoop withQwen entries

/-- getModel from modelRegistry.ts. -/
def getModel (reg : ModelRegistry) (authType : AuthType) (modelId : String) :
    Option ResolvedModelConfig :=
  (jsMapGet reg.modelsByAuthType authType).bind (fun m => jsMapGet m modelId)

/-- hasModel from modelRegistry.ts. -/
def hasModel (reg : ModelRegistry) (authType : AuthType) (modelId : String) :
    Bool :=
  (getModel reg authType modelId).isSome

/-- getFirstModelForAuthType from modelRegistry.ts: the first model in
registration order, or nothing. -/
def getFirstModelForAuthType (reg : ModelRegistry) (authType : AuthType) :
    Option ResolvedModelConfig :=
  match jsMapGet reg.modelsByAuthType authType with
  | none => none
  | some models => (models.map Prod.snd).head?

/-- getDefaultModelForAuthType from modelRegistry.ts: the fixed named
default for qwen-oauth, the first registered model otherwise. -/
def getDefaultModelForAuthType (reg : ModelRegistry) (authType : AuthType) :
    Option ResolvedModelConfig :=
  if authType = "qwen-oauth" then getModel reg authType DEFAULT_QWEN_MODEL
  else getFirstModelForAuthType reg authType

/-- findAuthTypesForModel from modelRegistry.ts: the reverse-index entry,
with the preferred provider-type moved to the front when present. -/
def findAuthTypesForModel (reg : ModelRegistry) (modelId : String)
    (preferredAuthType : Option AuthType) : List AuthType :=
  let authTypes := (jsMapGet reg.modelIdToAuthTypes modelId).getD []
  match preferredAuthType with
  | none => authTypes
  | some p =>
    if authTypes.contains p then p :: authTypes.filter (fun a => a ≠ p)
    else authTypes

end ModelRegistry

/-- SelectionSource from types.ts. -/
inductive SelectionSource where
  | DEFAULT
  | ENVIRONMENT
  | SETTINGS
  | PROGRAMMATIC_OVERRIDE
  | USER_MANUAL
deriving DecidableEq, Repr

/-- The change-notification callback: may fail, modelled with Except. -/
def ModelChangeCallback : Type :=
  AuthType → ResolvedModelConfig → Except String Unit

/-- CurrentModelInfo from types.ts. -/
structure CurrentModelInfo where
  authType : AuthType
  modelId : String
  model : ResolvedModelConfig
  selectionSource : SelectionSource
deriving DecidableEq, Repr

/-- Options for constructing the ModelSelectionManager. -/
structure ModelSelectionManagerOptions where
  initialAuthType : Option AuthType := none
  initialModelId : Option String := none
  onModelChange : Option ModelChangeCallback := none
  modelProvidersConfig : Option (List (AuthType × List ModelConfig)) := none

/-- The mutable state of a ModelSelectionManager, made explicit. -/
structure ModelSelectionManager where
  modelRegistry : ModelRegistry
  currentAuthType : AuthType
  currentModelId : String
  selectionSource : SelectionSource
  selectionTimestamp : Nat
  onModelChange : Option ModelChangeCallback

namespace ModelSelectionManager

/-- getModelFromEnvironment: the environment lookup collaborator yields a
candidate only for the legacy openai provider-type; env stands for the
OPENAI_MODEL environment variable. -/
def getModelFromEnvironment (st : ModelSelectionManager)
    (env : Option String) : Option String :=
  if st.currentAuthType = "openai" then env else none

/-- The registry-default branch of initializeDefaultSelection. -/
def useRegistryDefault (st : ModelSelectionManager) : ModelSelectionManager :=
  match st.modelRegistry.getDefaultModelForAuthType st.currentAuthType with
  | some defaultModel =>
    { st with currentModelId := defaultModel.id
              selectionSource := SelectionSource.DEFAULT }
  | none => st

/-- initializeDefaultSelection from modelSelectionManager.ts: persisted
identifier, then environment candidate, then registry default; each guard
uses JavaScript truthiness on the candidate string. -/
def initDefaultSelection (st : ModelSelectionManager) (env : Option String) :
    ModelSelectionManager :=
  if st.currentModelId ≠ "" ∧
      st.modelRegistry.hasModel st.currentAuthType st.currentModelId then
    { st with selectionSource := SelectionSource.SETTINGS }
  else
    match st.getModelFromEnvironment env with
    | some envModel =>
      if envModel ≠ "" ∧
          st.modelRegistry.hasModel st.currentAuthType envModel then
        { st with currentModelId := envModel
                  selectionSource := SelectionSource.ENVIRONMENT }
      else useRegistryDefault st
    | none => useRegistryDefault st

/-- The ModelSelectionManager constructor: builds the registry (which can
fail on a malformed entry), seeds the state from the options with
JavaScript || defaulting, then runs the initialization algorithm; now is
the construction-time clock reading. -/
def create (options : ModelSelectionManagerOptions) (env : Option String)
    (now : Nat) : Except String ModelSelectionManager := do
  let registry ← ModelRegistry.new options.modelProvidersConfig
  let st : ModelSelectionManager :=
    { modelRegistry := registry
      currentAuthType := jsOrOpt options.initialAuthType "qwen-oauth"
      currentModelId := jsOrOpt options.initialModelId ""
      selectionSource := SelectionSource.DEFAULT
      selectionTimestamp := now
      onModelChange := options.onModelChange }
  Except.ok (initDefaultSelection st env)

/-- switchModel from modelSelectionManager.ts: validate against the
registry for the current provider-type, optimistically commit identifier,
source and a fresh timestamp, invoke the callback, and roll back only the
identifier if the callback fails. Returns the post-call state together
with the signalled error, if any (a thrown exception leaves the object in
the returned state). -/
def switchModel (st : ModelSelectionManager) (modelId : String)
    (source : SelectionSource) (now : Nat) :
    ModelSelectionManager × Option String :=
  match st.modelRegistry.getModel st.currentAuthType modelId with
  | none =>
    (st, some ("Model '" ++ modelId ++ "' not found for authType '" ++
      st.currentAuthType ++ "'"))
  | some model =>
    let previousModelId := st.currentModelId
    let st1 :=
      { st with currentModelId := modelId
                selectionSource := source
                selectionTimestamp := now }
    match st1.onModelChange with
    | none => (st1, none)
    | some callback =>
      match callback st1.currentAuthType model with
      | Except.ok _ => (st1, none)
      | Except.error e => ({ st1 with currentModelId := previousModelId }, some e)

/-- getCurrentAuthType: a plain accessor. -/
def getCurrentAuthType (st : ModelSelectionManager) : AuthType :=
  st.currentAuthType

/-- getCurrentModelId: a plain accessor. -/
def getCurrentModelId (st : ModelSelectionManager) : String :=
  st.currentModelId

/-- getCurrentModel from modelSelectionManager.ts: fails when unselected
or when the stored identifier no longer resolves. -/
def getCurrentModel (st : ModelSelectionManager) :
    Except String CurrentModelInfo :=
  if st.currentModelId = "" then Except.error "No model selected"
  else
    match st.modelRegistry.getModel st.currentAuthType st.currentModelId with
    | none =>
      Except.error ("Current model '" ++ st.currentModelId ++
        "' not found for authType '" ++ st.currentAuthType ++ "'")
    | some model =>
      Except.ok
        { authType := st.currentAuthType
          modelId := st.currentModelId
          model := model
          selectionSource := st.selectionSource }

end ModelSelectionManager

/-- The registry with no caller-supplied configuration (built-ins only),
used as a concrete test fixture. -/
def emptyRegistry : ModelRegistry :=
  { modelsByAuthType := [], modelIdToAuthTypes := [] }

/-- The registry produced by the constructor with no configuration. -/
def demoRegistry : ModelRegistry :=
  (ModelRegistry.new none).toOption.getD emptyRegistry

/-- The resolved built-in coder model. -/
def qwenCoderResolved : ResolvedModelConfig :=
  { id := "coder-model"
    authType := "qwen-oauth"
    name := "Qwen Coder"
    description := some
      "The latest Qwen Coder model from Alibaba Cloud ModelStudio (version: qwen3-coder-plus-2025-09-23)"
    envKey := none
    baseUrl := "https://dashscope.aliyuncs.com/compatible-mode/v1"
    generationConfig :=
      { temperature := some (7/10)
        top_p := some (9/10)
        max_tokens := some 8192
        timeout := some 60000
        maxRetries := some 3 }
    capabilities := { vision := some false } }

/-- The resolved built-in vision model. -/
def qwenVisionResolved : ResolvedModelConfig :=
  { id := "vision-model"
    authType := "qwen-oauth"
    name := "Qwen Vision"
    description := some
      "The latest Qwen Vision model from Alibaba Cloud ModelStudio (version: qwen3-vl-plus-2025-09-23)"
    envKey := none
    baseUrl := "https://dashscope.aliyuncs.com/compatible-mode/v1"
    generationConfig :=
      { temperature := some (7/10)
        top_p := some (9/10)
        max_tokens := some 8192
        timeout := some 60000
        maxRetries := some 3 }
    capabilities := { vision := some true } }

/-- The built-in catalog as it sits in the registry. -/
def qwenCatalog : List (String × ResolvedModelConfig) :=
  [("coder-model", qwenCoderResolved), ("vision-model", qwenVisionResolved)]

/-- A callback that always fails, as a test fixture. -/
def failingCallback : ModelChangeCallback :=
  fun _ _ => Except.error "reconnect failed"

/-- A manager state over the built-ins-only registry with a failing
callback installed, as a test fixture. -/
def cbFixture : ModelSelectionManager :=
  { modelRegistry := demoRegistry
    currentAuthType := "qwen-oauth"
    currentModelId := "coder-model"
    selectionSource := SelectionSource.DEFAULT
    selectionTimestamp := 0
    onModelChange := some failingCallback }

/-- A manager state over the built-ins-only registry with no callback. -/
def plainFixture : ModelSelectionManager :=
  { modelRegistry := demoRegistry
    currentAuthType := "qwen-oauth"
    currentModelId := "coder-model"
    selectionSource := SelectionSource.USER_MANUAL
    selectionTimestamp := 42
    onModelChange := none }

/-- C1: when the target exists and the change-notification callback
fails, switchModel re-signals the callback error, rolls the identifier
back to its pre-switch value, and keeps the new source and timestamp (and
everything else, registry and provider-type included, unchanged). -/
theorem switchModel_callback_failure_rolls_back_id
    (st : ModelSelectionManager) (modelId : String) (source : SelectionSource)
    (now : Nat) (m : ResolvedModelConfig) (callback : ModelChangeCallback)
    (e : String)
    (hm : st.modelRegistry.getModel st.currentAuthType modelId = some m)
    (hcb : st.onModelChange = some callback)
    (herr : callback st.currentAuthType m = Except.error e) :
    ModelSelectionManager.switchModel st modelId source now =
      ({ st with selectionSource := source, selectionTimestamp := now },
       some e) := by
  simp [ModelSelectionManager.switchModel, hm, hcb, herr]

/-- Witness for C1: switching the fixture to the vision model under a
failing callback keeps the coder model current but records the new
source and timestamp, and returns the callback error. -/
theorem switchModel_callback_failure_rolls_back_id_witness :
    ModelSelectionManager.switchModel cbFixture "vision-model"
        SelectionSource.USER_MANUAL 5 =
      ({ cbFixture with selectionSource := SelectionSource.USER_MANUAL,
                        selectionTimestamp := 5 },
       some "reconnect failed") :=
  switchModel_callback_failure_rolls_back_id cbFixture "vision-model"
    SelectionSource.USER_MANUAL 5 qwenVisionResolved failingCallback
    "reconnect failed" rfl rfl rfl

/-- C2: switchModel on an identifier the registry does not know for the
current provider-type returns the not-found error and the state exactly
as it was. -/
theorem switchModel_not_found_leaves_state_untouched
    (st : ModelSelectionManager) (modelId : String) (source : SelectionSource)
    (now : Nat)
    (h : st.modelRegistry.getModel st.currentAuthType modelId = none) :
    ModelSelectionManager.switchModel st modelId source now =
      (st, some ("Model '" ++ modelId ++ "' not found for authType '" ++
        st.currentAuthType ++ "'")) := by
  simp [ModelSelectionManager.switchModel, h]

/-- Witness for C2: switching the fixture to an unregistered identifier
fails and changes nothing. -/
theorem switchModel_not_found_leaves_state_untouched_witness :
    ModelSelectionManager.switchModel plainFixture "no-such-model"
        SelectionSource.USER_MANUAL 7 =
      (plainFixture,
       some "Model 'no-such-model' not found for authType 'qwen-oauth'") :=
  switchModel_not_found_leaves_state_untouched plainFixture "no-such-model"
    SelectionSource.USER_MANUAL 7 (by decide)

/-- C5: the provider-type and identifier accessors are total projections,
and getCurrentModel fails with the no-selection error exactly on the
empty identifier, fails with the not-found error when the registry does
not resolve the stored identifier, and otherwise returns provider-type,
identifier, resolved definition and source. -/
theorem getCurrentModel_spec (st : ModelSelectionManager) :
    ModelSelectionManager.getCurrentAuthType st = st.currentAuthType ∧
    ModelSelectionManager.getCurrentModelId st = st.currentModelId ∧
    (st.currentModelId = "" →
      ModelSelectionManager.getCurrentModel st =
        Except.error "No model selected") ∧
    (st.currentModelId ≠ "" →
      st.modelRegistry.getModel st.currentAuthType st.currentModelId = none →
      ModelSelectionManager.getCurrentModel st =
        Except.error ("Current model '" ++ st.currentModelId ++
          "' not found for authType '" ++ st.currentAuthType ++ "'")) ∧
    (∀ m, st.currentModelId ≠ "" →
      st.modelRegistry.getModel st.currentAuthType st.currentModelId = some m →
      ModelSelectionManager.getCurrentModel st =
        Except.ok
          { authType := st.currentAuthType
            modelId := st.currentModelId
            model := m
            selectionSource := st.selectionSource }) := by
  refine ⟨rfl, rfl, ?_, ?_, ?_⟩
  · intro h
    simp [ModelSelectionManager.getCurrentModel, h]
  · intro h hm
    simp [ModelSelectionManager.getCurrentModel, h, hm]
  · intro m h hm
    simp [ModelSelectionManager.getCurrentModel, h, hm]

/-- Witness for C5: on the fixture the accessors return the stored
fields and getCurrentModel returns the resolved coder model with the
stored source. -/
theorem getCurrentModel_spec_witness :
    ModelSelectionManager.getCurrentModel plainFixture =
      Except.ok
        { authType := "qwen-oauth"
          modelId := "coder-model"
          model := qwenCoderResolved
          selectionSource := SelectionSource.USER_MANUAL } :=
  (getCurrentModel_spec plainFixture).2.2.2.2 qwenCoderResolved
    (by decide) rfl

/-- Helper: on a well-formed definition (nonempty identifier) resolution
succeeds and produces exactly the defaulted record. -/
theorem resolveModelConfig_ok (config : ModelConfig) (authType : AuthType)
    (hid : config.id ≠ "") :
    ModelRegistry.resolveModelConfig config authType =
      Except.ok
        { id := config.id
          authType := authType
          name := jsOrOpt config.name config.id
          description := config.description
          envKey := config.envKey
          baseUrl := jsOrOpt config.baseUrl ((DEFAULT_BASE_URLS authType).getD "")
          generationConfig :=
            ModelRegistry.mergeGenerationConfig config.generationConfig
          capabilities := config.capabilities.getD {} } := by
  simp [ModelRegistry.resolveModelConfig, ModelRegistry.validateModelConfig, hid]
  rfl

/-- C6: the default-model query is asymmetric: for qwen-oauth it looks up
the fixed named default identifier, for every other provider-type it is
the first model in registration order (nothing when the provider-type has
no models). -/
theorem getDefaultModel_spec (r : ModelRegistry) (authType : AuthType) :
    DEFAULT_QWEN_MODEL = "coder-model" ∧
    (authType = "qwen-oauth" →
      r.getDefaultModelForAuthType authType =
        r.getModel authType DEFAULT_QWEN_MODEL) ∧
    (authType ≠ "qwen-oauth" →
      r.getDefaultModelForAuthType authType =
        (jsMapGet r.modelsByAuthType authType).bind
          (fun models => (models.map Prod.snd).head?)) := by
  refine ⟨rfl, ?_, ?_⟩
  · intro h
    simp [ModelRegistry.getDefaultModelForAuthType, h]
  · intro h
    unfold ModelRegistry.getDefaultModelForAuthType
      ModelRegistry.getFirstModelForAuthType
    rw [if_neg h]
    cases jsMapGet r.modelsByAuthType authType <;> rfl

/-- Witness for C6: on the built-ins-only registry the qwen-oauth default
is the fixed named lookup and the openai default is the head of the
(empty) registration list. -/
theorem getDefaultModel_spec_witness :
    ModelRegistry.getDefaultModelForAuthType demoRegistry "qwen-oauth" =
      ModelRegistry.getModel demoRegistry "qwen-oauth" DEFAULT_QWEN_MODEL ∧
    ModelRegistry.getDefaultModelForAuthType demoRegistry "openai" =
      (jsMapGet demoRegistry.modelsByAuthType "openai").bind
        (fun models => (models.map Prod.snd).head?) :=
  ⟨(getDefaultModel_spec demoRegistry "qwen-oauth").2.1 rfl,
   (getDefaultModel_spec demoRegistry "openai").2.2 (by decide)⟩

/-- C9: reverse lookup returns the reverse-index entry for the
identifier (empty when unregistered); a preferred provider-type present
in it is moved to the front with the rest in unchanged relative order (a
filter of the original list); an absent or missing preference leaves the
list unchanged. -/
theorem findAuthTypesForModel_spec (r : ModelRegistry) (modelId : String)
    (p : AuthType) :
    (jsMapGet r.modelIdToAuthTypes modelId = none →
      ModelRegistry.findAuthTypesForModel r modelId none = []) ∧
    (ModelRegistry.findAuthTypesForModel r modelId none =
      (jsMapGet r.modelIdToAuthTypes modelId).getD []) ∧
    (p ∈ (jsMapGet r.modelIdToAuthTypes modelId).getD [] →
      ModelRegistry.findAuthTypesForModel r modelId (some p) =
        p :: ((jsMapGet r.modelIdToAuthTypes modelId).getD []).filter
          (fun a => a ≠ p)) ∧
    (p ∉ (jsMapGet r.modelIdToAuthTypes modelId).getD [] →
      ModelRegistry.findAuthTypesForModel r modelId (some p) =
        (jsMapGet r.modelIdToAuthTypes modelId).getD []) := by
  refine ⟨?_, rfl, ?_, ?_⟩
  · intro h
    simp [ModelRegistry.findAuthTypesForModel, h]
  · intro h
    simp [ModelRegistry.findAuthTypesForModel, h]
  · intro h
    simp [ModelRegistry.findAuthTypesForModel, h]

/-- A registry with one custom identifier registered under two custom
provider-types, as a reverse-lookup fixture. -/
def twoProviderRegistry : ModelRegistry :=
  (ModelRegistry.new (some
    [("provider-a", [{ id := "shared-model" }]),
     ("provider-b", [{ id := "shared-model" }])])).toOption.getD emptyRegistry

/-- Witness for C9: shared-model is registered under provider-a then
provider-b; preferring provider-b moves it to the front, an unknown
preference leaves the list unchanged, and an unregistered identifier
yields the empty list. -/
theorem findAuthTypesForModel_spec_witness :
    ModelRegistry.findAuthTypesForModel twoProviderRegistry "shared-model"
        (some "provider-b") =
      "provider-b" ::
        (["provider-a", "provider-b"].filter (fun a => a ≠ "provider-b")) ∧
    ModelRegistry.findAuthTypesForModel twoProviderRegistry "shared-model"
        (some "provider-c") = ["provider-a", "provider-b"] ∧
    ModelRegistry.findAuthTypesForModel twoProviderRegistry "absent-model"
        none = [] :=
  ⟨(findAuthTypesForModel_spec twoProviderRegistry "shared-model"
      "provider-b").2.2.1 (by decide),
   (findAuthTypesForModel_spec twoProviderRegistry "shared-model"
      "provider-c").2.2.2 (by decide),
   (findAuthTypesForModel_spec twoProviderRegistry "absent-model"
      "provider-a").1 (by decide)⟩

/-- C10: resolution coalesces on falsiness: a supplied empty-string
baseUrl is replaced by the provider-type default (empty when none is
registered), and a supplied empty-string name is replaced by the
identifier. -/
theorem resolve_falsy_coalescing (config : ModelConfig) (authType : AuthType)
    (hid : config.id ≠ "") :
    (config.baseUrl = some "" →
      ∃ m, ModelRegistry.resolveModelConfig config authType = Except.ok m ∧
        m.baseUrl = (DEFAULT_BASE_URLS authType).getD "") ∧
    (config.name = some "" →
      ∃ m, ModelRegistry.resolveModelConfig config authType = Except.ok m ∧
        m.name = config.id) := by
  constructor
  · intro h
    exact ⟨_, resolveModelConfig_ok config authType hid, by simp [jsOrOpt, h]⟩
  · intro h
    exact ⟨_, resolveModelConfig_ok config authType hid, by simp [jsOrOpt, h]⟩

/-- Witness for C10: a definition supplying empty name and baseUrl under
openai resolves to the openai default URL and the identifier as name. -/
theorem resolve_falsy_coalescing_witness :
    (∃ m, ModelRegistry.resolveModelConfig
        { id := "m1", name := some "", baseUrl := some "" } "openai" =
          Except.ok m ∧
        m.baseUrl = (DEFAULT_BASE_URLS "openai").getD "") ∧
    (∃ m, ModelRegistry.resolveModelConfig
        { id := "m1", name := some "", baseUrl := some "" } "openai" =
          Except.ok m ∧
        m.name = "m1") :=
  ⟨(resolve_falsy_coalescing
      { id := "m1", name := some "", baseUrl := some "" } "openai"
      (by decide)).1 rfl,
   (resolve_falsy_coalescing
      { id := "m1", name := some "", baseUrl := some "" } "openai"
      (by decide)).2 rfl⟩

/-- C7: the generation-config merge is field-by-field against the global
defaults (a supplied field overrides only itself; every unsupplied field
keeps the global default, top_p 9/10 and timeout 60000 among them), and a
supplied nonempty baseUrl survives resolution verbatim. -/
theorem generationConfig_merge_fieldwise (gc : ModelGenerationConfig)
    (config : ModelConfig) (authType : AuthType) (u : String)
    (hid : config.id ≠ "") (hu : config.baseUrl = some u) (hune : u ≠ "") :
    ModelRegistry.mergeGenerationConfig (some gc) =
      { temperature := gc.temperature <|> some (7/10)
        top_p := gc.top_p <|> some (9/10)
        top_k := gc.top_k
        max_tokens := gc.max_tokens <|> some 4096
        presence_penalty := gc.presence_penalty
        frequency_penalty := gc.frequency_penalty
        repetition_penalty := gc.repetition_penalty
        timeout := gc.timeout <|> some 60000
        maxRetries := gc.maxRetries <|> some 3
        disableCacheControl := gc.disableCacheControl } ∧
    ∃ m, ModelRegistry.resolveModelConfig config authType = Except.ok m ∧
      m.baseUrl = u ∧
      m.generationConfig =
        ModelRegistry.mergeGenerationConfig config.generationConfig := by
  constructor
  · simp [ModelRegistry.mergeGenerationConfig, DEFAULT_GENERATION_CONFIG]
  · exact ⟨_, resolveModelConfig_ok config authType hid,
      by simp [jsOrOpt, hu, hune], rfl⟩

/-- Witness for C7: a custom model under a custom provider-type that
supplies only temperature and a baseUrl keeps the supplied URL and the
global default top_p. -/
theorem generationConfig_merge_fieldwise_witness :
    ModelRegistry.mergeGenerationConfig
        (some { temperature := some (1/2) }) =
      { temperature := some (1/2)
        top_p := some (9/10)
        max_tokens := some 4096
        timeout := some 60000
        maxRetries := some 3 } ∧
    ∃ m, ModelRegistry.resolveModelConfig
        { id := "gpt-4-turbo", baseUrl := some "https://api.openai.com/v1",
          generationConfig := some { temperature := some (1/2) } }
        "my-provider" = Except.ok m ∧
      m.baseUrl = "https://api.openai.com/v1" ∧
      m.generationConfig =
        ModelRegistry.mergeGenerationConfig
          (some { temperature := some (1/2) }) := by
  have h := generationConfig_merge_fieldwise { temperature := some (1/2) }
    { id := "gpt-4-turbo", baseUrl := some "https://api.openai.com/v1",
      generationConfig := some { temperature := some (1/2) } }
    "my-provider" "https://api.openai.com/v1" (by decide) rfl (by decide)
  exact ⟨h.1.trans rfl, h.2⟩

/-- Helper: setting one key of a JavaScript-style map leaves every other
key's lookup unchanged. -/
theorem jsMapGet_set_ne {β : Type} (m : List (String × β)) (k1 k2 : String)
    (v : β) (h : k1 ≠ k2) : jsMapGet (jsMapSet m k1 v) k2 = jsMapGet m k2 := by
  induction m with
  | nil => simp [jsMapSet, jsMapGet, h]
  | cons e rest ih =>
    obtain ⟨ka, va⟩ := e
    by_cases ha : ka = k1
    · subst ha
      simp [jsMapSet, jsMapGet, h]
    · simp [jsMapSet, jsMapGet, ha, ih]

/-- Helper: a successful registration rewrites exactly one forward-map
key, the provider-type being registered. -/
theorem registerAuthTypeModels_ok_shape (reg : ModelRegistry)
    (authType : AuthType) (models : List ModelConfig) (reg1 : ModelRegistry)
    (h : ModelRegistry.registerAuthTypeModels reg authType models =
      Except.ok reg1) :
    ∃ modelMap reverseIndex,
      reg1 = { modelsByAuthType := jsMapSet reg.modelsByAuthType authType modelMap
               modelIdToAuthTypes := reverseIndex } := by
  unfold ModelRegistry.registerAuthTypeModels at h
  rcases hl : ModelRegistry.registerModelsLoop authType models []
      reg.modelIdToAuthTypes with e | out
  · rw [hl] at h
    simp [Bind.bind, Except.bind] at h
  · rw [hl] at h
    obtain ⟨modelMap, reverseIndex⟩ := out
    simp [Bind.bind, Except.bind] at h
    exact ⟨modelMap, reverseIndex, h.symm⟩

/-- Helper: the constructor loop skips entries keyed by the built-in
provider-type, so it equals the loop over the filtered entries. -/
theorem newLoop_filter (entries : List (AuthType × List ModelConfig)) :
    ∀ reg, ModelRegistry.newLoop reg entries =
      ModelRegistry.newLoop reg
        (entries.filter (fun p => p.1 ≠ "qwen-oauth")) := by
  induction entries with
  | nil => intro reg; rfl
  | cons e rest ih =>
    intro reg
    obtain ⟨authType, models⟩ := e
    by_cases ha : authType = "qwen-oauth"
    · simp [ModelRegistry.newLoop, ha, ih reg]
    · simp only [ModelRegistry.newLoop, ha, if_false, List.filter_cons]
      simp only [ha, decide_not, decide_eq_true_eq]
      rcases hr : ModelRegistry.registerAuthTypeModels reg authType models
        with e1 | reg1
      · simp [ModelRegistry.newLoop, Bind.bind, Except.bind, hr, ha]
      · simp [ModelRegistry.newLoop, Bind.bind, Except.bind, hr, ha, ih reg1]

/-- Helper: the constructor loop never touches the built-in catalog. -/
theorem newLoop_preserves_qwen (entries : List (AuthType × List ModelConfig)) :
    ∀ reg r, ModelRegistry.newLoop reg entries = Except.ok r →
      jsMapGet r.modelsByAuthType "qwen-oauth" =
        jsMapGet reg.modelsByAuthType "qwen-oauth" := by
  induction entries with
  | nil =>
    intro reg r h
    simp [ModelRegistry.newLoop] at h
    rw [h]
  | cons e rest ih =>
    intro reg r h
    obtain ⟨authType, models⟩ := e
    by_cases ha : authType = "qwen-oauth"
    · rw [ModelRegistry.newLoop, if_pos ha] at h
      exact ih reg r h
    · rw [ModelRegistry.newLoop, if_neg ha] at h
      rcases hr : ModelRegistry.registerAuthTypeModels reg authType models
        with e1 | reg1
      · rw [hr] at h
        simp [Bind.bind, Except.bind] at h
      · rw [hr] at h
        simp only [Bind.bind, Except.bind] at h
        obtain ⟨mm, ri, hshape⟩ :=
          registerAuthTypeModels_ok_shape reg authType models reg1 hr
        rw [ih reg1 r h, hshape]
        exact jsMapGet_set_ne reg.modelsByAuthType authType "qwen-oauth" mm ha

/-- C3: the built-in qwen-oauth catalog of every constructed registry is
exactly the two hard-coded entries; caller-supplied entries under that
key are silently discarded — construction behaves as if they were
filtered out, so they are never merged and never an error. -/
theorem qwen_catalog_protected (cfg : List (AuthType × List ModelConfig)) :
    ModelRegistry.new (some cfg) =
      ModelRegistry.new (some (cfg.filter (fun p => p.1 ≠ "qwen-oauth"))) ∧
    ∀ r, ModelRegistry.new (some cfg) = Except.ok r →
      jsMapGet r.modelsByAuthType "qwen-oauth" = some qwenCatalog := by
  have h0 : ∀ entries : List (AuthType × List ModelConfig),
      ModelRegistry.new (some entries) =
        ModelRegistry.newLoop demoRegistry entries := fun _ => rfl
  constructor
  · rw [h0 cfg, h0 (cfg.filter (fun p => p.1 ≠ "qwen-oauth"))]
    exact newLoop_filter cfg demoRegistry
  · intro r hr
    rw [h0 cfg] at hr
    rw [newLoop_preserves_qwen cfg demoRegistry r hr]
    rfl

/-- A configuration that tries to tamper with the built-in catalog. -/
def tamperCfg : List (AuthType × List ModelConfig) :=
  [("qwen-oauth", [{ id := "custom-qwen" }]), ("openai", [{ id := "gpt-4" }])]

/-- The registry built from the tampering configuration. -/
def tamperRegistry : ModelRegistry :=
  (ModelRegistry.new (some tamperCfg)).toOption.getD emptyRegistry

/-- Witness for C3: supplying custom-qwen under qwen-oauth still yields
exactly the two built-in entries, and custom-qwen is absent. -/
theorem qwen_catalog_protected_witness :
    jsMapGet tamperRegistry.modelsByAuthType "qwen-oauth" = some qwenCatalog ∧
    ModelRegistry.hasModel tamperRegistry "qwen-oauth" "custom-qwen" = false :=
  ⟨(qwen_catalog_protected tamperCfg).2 tamperRegistry rfl, by decide⟩

/-- The construction-time error message for a missing identifier. -/
def missingIdMsg (authType : AuthType) : String :=
  "Model config in authType '" ++ authType ++ "' missing required field: id"

/-- Helper: a model list holding an empty identifier makes the
registration loop fail with the message naming that provider-type. -/
theorem registerModelsLoop_error (authType : AuthType)
    (models : List ModelConfig) (hm : ∃ c ∈ models, c.id = "") :
    ∀ modelMap reverseIndex,
      ModelRegistry.registerModelsLoop authType models modelMap reverseIndex =
        Except.error (missingIdMsg authType) := by
  induction models with
  | nil => simp at hm
  | cons c rest ih =>
    intro modelMap reverseIndex
    by_cases hc : c.id = ""
    · simp [ModelRegistry.registerModelsLoop, ModelRegistry.resolveModelConfig,
        ModelRegistry.validateModelConfig, hc, missingIdMsg, Bind.bind,
        Except.bind]
    · obtain ⟨c2, hmem, h2⟩ := hm
      rcases List.mem_cons.mp hmem with heq | hmem2
      · subst heq; exact absurd h2 hc
      · rw [ModelRegistry.registerModelsLoop]
        rw [resolveModelConfig_ok c authType hc]
        simp only [Bind.bind, Except.bind]
        exact ih ⟨c2, hmem2, h2⟩ _ _

/-- Helper: a model list with no empty identifier registers cleanly. -/
theorem registerModelsLoop_ok (authType : AuthType)
    (models : List ModelConfig) (hm : ∀ c ∈ models, c.id ≠ "") :
    ∀ modelMap reverseIndex, ∃ out,
      ModelRegistry.registerModelsLoop authType models modelMap reverseIndex =
        Except.ok out := by
  induction models with
  | nil => intro modelMap reverseIndex; exact ⟨_, rfl⟩
  | cons c rest ih =>
    intro modelMap reverseIndex
    have hc : c.id ≠ "" := hm c (List.mem_cons_self c rest)
    rw [ModelRegistry.registerModelsLoop]
    rw [resolveModelConfig_ok c authType hc]
    simp only [Bind.bind, Except.bind]
    exact ih (fun c2 h2 => hm c2 (List.mem_cons_of_mem c h2)) _ _

/-- Helper: registerAuthTypeModels fails with the provider-type-naming
message exactly when its model list holds an empty identifier. -/
theorem registerAuthTypeModels_error (reg : ModelRegistry)
    (authType : AuthType) (models : List ModelConfig)
    (hm : ∃ c ∈ models, c.id = "") :
    ModelRegistry.registerAuthTypeModels reg authType models =
      Except.error (missingIdMsg authType) := by
  unfold ModelRegistry.registerAuthTypeModels
  rw [registerModelsLoop_error authType models hm [] reg.modelIdToAuthTypes]
  rfl

/-- Helper: registerAuthTypeModels succeeds when no identifier is empty. -/
theorem registerAuthTypeModels_ok (reg : ModelRegistry)
    (authType : AuthType) (models : List ModelConfig)
    (hm : ∀ c ∈ models, c.id ≠ "") :
    ∃ reg1, ModelRegistry.registerAuthTypeModels reg authType models =
      Except.ok reg1 := by
  unfold ModelRegistry.registerAuthTypeModels
  obtain ⟨out, hout⟩ :=
    registerModelsLoop_ok authType models hm [] reg.modelIdToAuthTypes
  rw [hout]
  exact ⟨_, rfl⟩

/-- Helper: the constructor loop fails, naming an offending non-built-in
provider-type, when some non-built-in entry holds an empty identifier. -/
theorem newLoop_error (entries : List (AuthType × List ModelConfig))
    (authType : AuthType) (models : List ModelConfig) (c : ModelConfig)
    (hmem : (authType, models) ∈ entries) (hq : authType ≠ "qwen-oauth")
    (hc : c ∈ models) (hid : c.id = "") :
    ∀ reg, ∃ bad, bad ≠ "qwen-oauth" ∧
      ModelRegistry.newLoop reg entries =
        Except.error (missingIdMsg bad) ∧
      ∃ p ∈ entries, p.1 = bad ∧ ∃ m ∈ p.2, m.id = "" := by
  induction entries with
  | nil => cases hmem
  | cons e rest ih =>
    intro reg
    obtain ⟨a, ms⟩ := e
    by_cases ha : a = "qwen-oauth"
    · have hmem2 : (authType, models) ∈ rest := by
        rcases List.mem_cons.mp hmem with heq | h2
        · exact absurd ((congrArg Prod.fst heq).trans ha) hq
        · exact h2
      obtain ⟨bad, hb1, hb2, p, hp, hp1, hp2⟩ := ih hmem2 reg
      refine ⟨bad, hb1, ?_, p, List.mem_cons_of_mem _ hp, hp1, hp2⟩
      rw [ModelRegistry.newLoop, if_pos ha]
      exact hb2
    · by_cases hbad : ∃ m ∈ ms, m.id = ""
      · refine ⟨a, ha, ?_, (a, ms), List.mem_cons_self _ _, rfl, hbad⟩
        rw [ModelRegistry.newLoop, if_neg ha]
        rw [registerAuthTypeModels_error reg a ms hbad]
        rfl
      · push_neg at hbad
        have hmem2 : (authType, models) ∈ rest := by
          rcases List.mem_cons.mp hmem with heq | h2
          · exfalso
            have hms : models = ms := congrArg Prod.snd heq
            exact hbad c (hms ▸ hc) hid
          · exact h2
        obtain ⟨reg1, hreg1⟩ := registerAuthTypeModels_ok reg a ms hbad
        obtain ⟨bad, hb1, hb2, p, hp, hp1, hp2⟩ := ih hmem2 reg1
        refine ⟨bad, hb1, ?_, p, List.mem_cons_of_mem _ hp, hp1, hp2⟩
        rw [ModelRegistry.newLoop, if_neg ha, hreg1]
        simpa [Bind.bind, Except.bind] using hb2

/-- Counterexample for C8 as frozen: a configuration holding a model
definition with an empty identifier under the qwen-oauth key constructs
successfully, because entries under the built-in key are skipped before
validation. -/
theorem malformed_qwen_entry_is_not_an_error :
    (ModelRegistry.new (some [("qwen-oauth", [{ id := "" }])])).toOption.isSome
      = true := by decide

/-- C8 amended: a configuration holding a model definition with an empty
identifier under a provider-type other than the built-in one makes
construction fail with an error naming an offending provider-type, and no
registry is produced. -/
theorem malformed_entry_aborts_construction
    (cfg : List (AuthType × List ModelConfig)) (authType : AuthType)
    (models : List ModelConfig) (c : ModelConfig)
    (hmem : (authType, models) ∈ cfg) (hq : authType ≠ "qwen-oauth")
    (hc : c ∈ models) (hid : c.id = "") :
    ∃ bad, bad ≠ "qwen-oauth" ∧
      ModelRegistry.new (some cfg) = Except.error (missingIdMsg bad) ∧
      ∃ p ∈ cfg, p.1 = bad ∧ ∃ m ∈ p.2, m.id = "" := by
  have h0 : ModelRegistry.new (some cfg) =
      ModelRegistry.newLoop demoRegistry cfg := rfl
  rw [h0]
  exact newLoop_error cfg authType models c hmem hq hc hid demoRegistry

/-- Witness for the amended C8: an empty identifier under openai aborts
construction with the message naming openai. -/
theorem malformed_entry_aborts_construction_witness :
    ∃ bad, bad ≠ "qwen-oauth" ∧
      ModelRegistry.new (some [("openai", [{ id := "" }])]) =
        Except.error (missingIdMsg bad) ∧
      ∃ p ∈ [(("openai" : AuthType), [({ id := "" } : ModelConfig)])],
        p.1 = bad ∧ ∃ m ∈ p.2, m.id = "" :=
  malformed_entry_aborts_construction [("openai", [{ id := "" }])] "openai"
    [{ id := "" }] { id := "" } (by decide) (by decide) (by decide) rfl

/-- Helper: initialization never changes the provider-type. -/
theorem initDefaultSelection_authType (st0 : ModelSelectionManager)
    (env : Option String) :
    (ModelSelectionManager.initDefaultSelection st0 env).currentAuthType =
      st0.currentAuthType := by
  unfold ModelSelectionManager.initDefaultSelection
    ModelSelectionManager.useRegistryDefault
  split_ifs with h1
  · rfl
  · cases st0.getModelFromEnvironment env with
    | none =>
      dsimp only
      cases st0.modelRegistry.getDefaultModelForAuthType st0.currentAuthType
        <;> rfl
    | some m =>
      dsimp only
      split_ifs with hc
      · rfl
      · cases st0.modelRegistry.getDefaultModelForAuthType st0.currentAuthType
          <;> rfl

/-- Helper: initialization never changes the registry. -/
theorem initDefaultSelection_registry (st0 : ModelSelectionManager)
    (env : Option String) :
    (ModelSelectionManager.initDefaultSelection st0 env).modelRegistry =
      st0.modelRegistry := by
  unfold ModelSelectionManager.initDefaultSelection
    ModelSelectionManager.useRegistryDefault
  split_ifs with h1
  · rfl
  · cases st0.getModelFromEnvironment env with
    | none =>
      dsimp only
      cases st0.modelRegistry.getDefaultModelForAuthType st0.currentAuthType
        <;> rfl
    | some m =>
      dsimp only
      split_ifs with hc
      · rfl
      · cases st0.modelRegistry.getDefaultModelForAuthType st0.currentAuthType
          <;> rfl

/-- Helper: a valid persisted identifier is kept with the settings
source. -/
theorem initDefaultSelection_settings (st0 : ModelSelectionManager)
    (env : Option String)
    (h1 : st0.currentModelId ≠ "" ∧
      st0.modelRegistry.hasModel st0.currentAuthType st0.currentModelId = true) :
    (ModelSelectionManager.initDefaultSelection st0 env).currentModelId =
      st0.currentModelId ∧
    (ModelSelectionManager.initDefaultSelection st0 env).selectionSource =
      SelectionSource.SETTINGS := by
  unfold ModelSelectionManager.initDefaultSelection
  rw [if_pos h1]
  exact ⟨rfl, rfl⟩

/-- Helper: with no valid persisted identifier, a nonempty valid
environment candidate is accepted with the environment source. -/
theorem initDefaultSelection_environment (st0 : ModelSelectionManager)
    (env : Option String) (m : String)
    (h1 : ¬(st0.currentModelId ≠ "" ∧
      st0.modelRegistry.hasModel st0.currentAuthType st0.currentModelId = true))
    (hE : ModelSelectionManager.getModelFromEnvironment st0 env = some m)
    (hne : m ≠ "")
    (hval : st0.modelRegistry.hasModel st0.currentAuthType m = true) :
    (ModelSelectionManager.initDefaultSelection st0 env).currentModelId = m ∧
    (ModelSelectionManager.initDefaultSelection st0 env).selectionSource =
      SelectionSource.ENVIRONMENT := by
  unfold ModelSelectionManager.initDefaultSelection
  rw [if_neg h1, hE]
  dsimp only
  rw [if_pos ⟨hne, hval⟩]
  exact ⟨rfl, rfl⟩

/-- Helper: with neither a valid persisted identifier nor a usable
environment candidate, the registry default is accepted with the default
source. -/
theorem initDefaultSelection_default (st0 : ModelSelectionManager)
    (env : Option String) (d : ResolvedModelConfig)
    (h1 : ¬(st0.currentModelId ≠ "" ∧
      st0.modelRegistry.hasModel st0.currentAuthType st0.currentModelId = true))
    (h2 : ¬∃ m, ModelSelectionManager.getModelFromEnvironment st0 env = some m ∧
      m ≠ "" ∧ st0.modelRegistry.hasModel st0.currentAuthType m = true)
    (hd : st0.modelRegistry.getDefaultModelForAuthType st0.currentAuthType =
      some d) :
    (ModelSelectionManager.initDefaultSelection st0 env).currentModelId = d.id ∧
    (ModelSelectionManager.initDefaultSelection st0 env).selectionSource =
      SelectionSource.DEFAULT := by
  unfold ModelSelectionManager.initDefaultSelection
  rw [if_neg h1]
  cases hE : ModelSelectionManager.getModelFromEnvironment st0 env with
  | none =>
    dsimp only
    unfold ModelSelectionManager.useRegistryDefault
    rw [hd]
    exact ⟨rfl, rfl⟩
  | some m =>
    have hcond : ¬(m ≠ "" ∧
        st0.modelRegistry.hasModel st0.currentAuthType m = true) :=
      fun hc => h2 ⟨m, hE, hc.1, hc.2⟩
    dsimp only
    rw [if_neg hcond]
    unfold ModelSelectionManager.useRegistryDefault
    rw [hd]
    exact ⟨rfl, rfl⟩

/-- Helper: the environment lookup reads only the provider-type, which
initialization preserves. -/
theorem getModelFromEnvironment_init (st0 : ModelSelectionManager)
    (env env2 : Option String) :
    ModelSelectionManager.getModelFromEnvironment
        (ModelSelectionManager.initDefaultSelection st0 env) env2 =
      ModelSelectionManager.getModelFromEnvironment st0 env2 := by
  unfold ModelSelectionManager.getModelFromEnvironment
  rw [initDefaultSelection_authType]

/-- Helper: when all three fallbacks fail, initialization leaves the
seeded identifier (and the seeded source) in place. -/
theorem initDefaultSelection_nothing (st0 : ModelSelectionManager)
    (env : Option String)
    (h1 : ¬(st0.currentModelId ≠ "" ∧
      st0.modelRegistry.hasModel st0.currentAuthType st0.currentModelId = true))
    (h2 : ¬∃ m, ModelSelectionManager.getModelFromEnvironment st0 env = some m ∧
      m ≠ "" ∧ st0.modelRegistry.hasModel st0.currentAuthType m = true)
    (hd : st0.modelRegistry.getDefaultModelForAuthType st0.currentAuthType =
      none) :
    ModelSelectionManager.initDefaultSelection st0 env = st0 := by
  unfold ModelSelectionManager.initDefaultSelection
  rw [if_neg h1]
  cases hE : ModelSelectionManager.getModelFromEnvironment st0 env with
  | none =>
    dsimp only
    unfold ModelSelectionManager.useRegistryDefault
    rw [hd]
  | some m =>
    have hcond : ¬(m ≠ "" ∧
        st0.modelRegistry.hasModel st0.currentAuthType m = true) :=
      fun hc => h2 ⟨m, hE, hc.1, hc.2⟩
    dsimp only
    rw [if_neg hcond]
    unfold ModelSelectionManager.useRegistryDefault
    rw [hd]

/-- C4 (amended): initialization resolves the starting selection with
strict precedence — a supplied identifier valid for the initial
provider-type wins with source settings; else a nonempty environment
candidate valid for the current provider-type wins with source
environment; else the registry default wins with source default; and when
all three fail the current identifier keeps its seeded value (the empty
string exactly when no initial identifier was supplied). -/
theorem init_selection_precedence
    (options : ModelSelectionManagerOptions) (env : Option String) (now : Nat)
    (st : ModelSelectionManager) (registry : ModelRegistry)
    (hreg : ModelRegistry.new options.modelProvidersConfig =
      Except.ok registry)
    (h : ModelSelectionManager.create options env now = Except.ok st) :
    st.modelRegistry = registry ∧
    st.currentAuthType = jsOrOpt options.initialAuthType "qwen-oauth" ∧
    ((jsOrOpt options.initialModelId "" ≠ "" ∧
        registry.hasModel st.currentAuthType
          (jsOrOpt options.initialModelId "") = true) →
      st.currentModelId = jsOrOpt options.initialModelId "" ∧
      st.selectionSource = SelectionSource.SETTINGS) ∧
    (¬(jsOrOpt options.initialModelId "" ≠ "" ∧
        registry.hasModel st.currentAuthType
          (jsOrOpt options.initialModelId "") = true) →
      ∀ m, ModelSelectionManager.getModelFromEnvironment st env = some m →
        m ≠ "" → registry.hasModel st.currentAuthType m = true →
        st.currentModelId = m ∧
        st.selectionSource = SelectionSource.ENVIRONMENT) ∧
    (¬(jsOrOpt options.initialModelId "" ≠ "" ∧
        registry.hasModel st.currentAuthType
          (jsOrOpt options.initialModelId "") = true) →
      ¬(∃ m, ModelSelectionManager.getModelFromEnvironment st env = some m ∧
        m ≠ "" ∧ registry.hasModel st.currentAuthType m = true) →
      ∀ d, registry.getDefaultModelForAuthType st.currentAuthType = some d →
        st.currentModelId = d.id ∧
        st.selectionSource = SelectionSource.DEFAULT) ∧
    (¬(jsOrOpt options.initialModelId "" ≠ "" ∧
        registry.hasModel st.currentAuthType
          (jsOrOpt options.initialModelId "") = true) →
      ¬(∃ m, ModelSelectionManager.getModelFromEnvironment st env = some m ∧
        m ≠ "" ∧ registry.hasModel st.currentAuthType m = true) →
      registry.getDefaultModelForAuthType st.currentAuthType = none →
      st.currentModelId = jsOrOpt options.initialModelId "") := by
  unfold ModelSelectionManager.create at h
  rw [hreg] at h
  simp only [Bind.bind, Except.bind, Except.ok.injEq] at h
  subst h
  refine ⟨initDefaultSelection_registry _ env,
    initDefaultSelection_authType _ env, ?_, ?_, ?_, ?_⟩
  · intro hb1
    rw [initDefaultSelection_authType _ env] at hb1
    exact initDefaultSelection_settings _ env hb1
  · intro hnb m hE hne hval
    rw [initDefaultSelection_authType _ env] at hnb hval
    rw [getModelFromEnvironment_init] at hE
    exact initDefaultSelection_environment _ env m hnb hE hne hval
  · intro hnb hnE d hd
    rw [initDefaultSelection_authType _ env] at hnb hd
    simp only [getModelFromEnvironment_init,
      initDefaultSelection_authType _ env] at hnE
    exact initDefaultSelection_default _ env d hnb hnE hd
  · intro hnb hnE hd
    rw [initDefaultSelection_authType _ env] at hnb hd
    simp only [getModelFromEnvironment_init,
      initDefaultSelection_authType _ env] at hnE
    rw [initDefaultSelection_nothing _ env hnb hnE hd]

/-- A throwaway manager used only as a getD fallback for fixtures. -/
def junkManager : ModelSelectionManager :=
  { modelRegistry := emptyRegistry
    currentAuthType := ""
    currentModelId := ""
    selectionSource := SelectionSource.DEFAULT
    selectionTimestamp := 0
    onModelChange := none }

/-- Options supplying an identifier that is invalid for a provider-type
that has no registry default. -/
def staleIdOptions : ModelSelectionManagerOptions :=
  { initialAuthType := some "openai", initialModelId := some "bogus" }

/-- The manager produced from those options. -/
def staleIdState : ModelSelectionManager :=
  (ModelSelectionManager.create staleIdOptions none 0).toOption.getD
    junkManager

/-- Counterexample for C4 as frozen: with a supplied identifier that the
registry does not know, no environment candidate and no registry default,
every fallback fails, yet initialization ends with the supplied nonempty
identifier, not the empty one. -/
theorem init_no_fallback_keeps_stale_id :
    ModelSelectionManager.create staleIdOptions none 0 =
      Except.ok staleIdState ∧
    staleIdState.modelRegistry.hasModel staleIdState.currentAuthType
      staleIdState.currentModelId = false ∧
    ModelSelectionManager.getModelFromEnvironment staleIdState none = none ∧
    staleIdState.modelRegistry.getDefaultModelForAuthType
      staleIdState.currentAuthType = none ∧
    staleIdState.currentModelId = "bogus" :=
  ⟨rfl, by decide, rfl, rfl, rfl⟩

/-- Options carrying a valid persisted identifier. -/
def settingsOptions : ModelSelectionManagerOptions :=
  { initialModelId := some "vision-model" }

/-- The manager produced from those options. -/
def settingsState : ModelSelectionManager :=
  (ModelSelectionManager.create settingsOptions none 3).toOption.getD
    junkManager

/-- Witness for the amended C4: a valid persisted identifier is accepted
with source settings. -/
theorem init_selection_precedence_witness :
    settingsState.currentModelId = "vision-model" ∧
    settingsState.selectionSource = SelectionSource.SETTINGS :=
  (init_selection_precedence settingsOptions none 3 settingsState
    demoRegistry rfl rfl).2.2.1 ⟨by decide, by decide⟩
